import Mathlib

/-
Verification of the SSF client connection state machine
(src/core/client/client.ipp) against its specification.

The embedding models SSFClient<N, T> as a state record plus operations that
return the successor state together with the list of externally observable
actions they perform, in program order.  Asynchronous completions (connect,
handshake, admin start, multiplexer close) are driven by an explicit
environment record, and a whole-session run function chains the handlers the
way the io_service would.
-/

namespace SSF

/-- Notification kinds of ssf::services::initialisation used by
SSFClient::Notify: NETWORK, TRANSPORT and CLOSE. -/
inductive NotifyKind
  | NETWORK
  | TRANSPORT
  | CLOSE
deriving DecidableEq

/-- Error codes (boost::system::error_code values) are modelled as natural
numbers, with 0 the default-constructed success value. -/
abbrev ErrorCode := Nat

/-- The success (default-constructed) error code. -/
def noError : ErrorCode := 0

/-- Modelled from the spec: the already-active code assigned by SSFClient::Run.
The defining header common/error/error.h is not among the sources; the only
relevant property is that the code is a fixed nonzero value, and 16 mirrors
errc::device_or_resource_busy. -/
def device_or_resource_busy : ErrorCode := 16

/-- The admin commands whose factories SSFClient::DoFiberize registers
(CreateServiceRequest, StopServiceRequest, ServiceStatus). -/
inductive AdminCommandKind
  | createServiceRequest
  | stopServiceRequest
  | serviceStatus
deriving DecidableEq

/-- The micro service types SSFClient::DoFiberize registers into the service
factory, one constructor per RegisterToServiceFactory call site. -/
inductive ServiceKind
  | socksServer
  | fibersToSockets
  | socketsToFibers
  | fibersToDatagrams
  | datagramsToFibers
  | fileToFiber
  | fiberToFile
  | fileEnquirer
  | processServer
deriving DecidableEq

/-- Externally observable actions of the client, in program order.
postNotification is Notify's io_service.post of the application callback;
invokeNotificationSync stands for a synchronous in-stack invocation of the
callback, which exists in the action alphabet precisely so that its absence
from every trace is a statable property. -/
inductive Action
  | postNotification (k : NotifyKind) (ec : ErrorCode)
  | invokeNotificationSync (k : NotifyKind) (ec : ErrorCode)
  | createSocket
  | resolveEndpoint
  | asyncConnect
  | registerCommand (c : AdminCommandKind)
  | fiberizeDemux
  | createServiceManager
  | createServiceFactory
  | registerService (s : ServiceKind)
  | startAdminService
  | stopServiceInstance (id : Nat)
  | destroyFactory
  | shutdownSocket
  | closeSocket
  | engineStop
deriving DecidableEq

/-- State of the fiber demux (the stream multiplexer) as the client sees it:
not yet fiberized, fiberized over the transport socket, or closed. -/
inductive DemuxState
  | notFiberized
  | fiberized
  | closed
deriving DecidableEq

/-- The SSFClient state: whether the async engine is started, whether
p_socket_ holds a socket, the demux state, the service factory associated to
the demux (holding the ids of its running service instances) and whether a
callback_ was supplied at construction. -/
structure ClientState where
  engineStarted : Bool
  socketPresent : Bool
  demux : DemuxState
  factory : Option (List Nat)
  callbackPresent : Bool
deriving DecidableEq

/-- The state of a freshly constructed SSFClient. -/
def initialState (cb : Bool) : ClientState :=
  { engineStarted := false
    socketPresent := false
    demux := DemuxState.notFiberized
    factory := none
    callbackPresent := cb }

/-- SSFClient::Notify: when a callback was supplied, post its invocation to
the io_service; otherwise do nothing. -/
def Notify (st : ClientState) (k : NotifyKind) (ec : ErrorCode) : List Action :=
  if st.callbackPresent then [Action.postNotification k ec] else []

/-- SSFClient::OnDemuxClose: look up the service factory associated with the
demux; if present, Destroy it, then notify kind CLOSE with a
default-constructed (success) error code.
Modelled from the spec for the part outside the sources: §4.3, destroy stops
every tracked Service Instance (best-effort) and clears the Registry. -/
def OnDemuxClose (st : ClientState) : ClientState × List Action :=
  match st.factory with
  | some ids =>
      let st1 := { st with factory := none }
      (st1, ids.map Action.stopServiceInstance ++ [Action.destroyFactory]
              ++ Notify st1 NotifyKind.CLOSE noError)
  | none => (st, Notify st NotifyKind.CLOSE noError)

/-- Modelled from the spec: fiber_demux_.close() (§4.2) — close is idempotent
and the installed on_close handler (OnDemuxClose) fires exactly once, when a
fiberized demux is closed; on a never-fiberized or already-closed demux it
does nothing. -/
def demuxClose (st : ClientState) : ClientState × List Action :=
  match st.demux with
  | DemuxState.fiberized => OnDemuxClose { st with demux := DemuxState.closed }
  | _ => (st, [])

/-- SSFClient::Run: reject with device_or_resource_busy when the async engine
is already started; otherwise create the network socket, resolve the remote
endpoint (resolveEc is the resolver's outcome, 0 on success), on resolution
failure notify kind NETWORK with that error and return it, and on success
start the async engine and issue the asynchronous connect.  The result is the
successor state, the actions performed, and the caller's error code. -/
def Run (st : ClientState) (resolveEc : ErrorCode) :
    ClientState × List Action × ErrorCode :=
  if st.engineStarted then
    (st, [], device_or_resource_busy)
  else
    let st1 := { st with socketPresent := true }
    if resolveEc ≠ 0 then
      (st1, [Action.createSocket, Action.resolveEndpoint]
              ++ Notify st1 NotifyKind.NETWORK resolveEc, resolveEc)
    else
      ({ st1 with engineStarted := true },
       [Action.createSocket, Action.resolveEndpoint, Action.asyncConnect],
       noError)

/-- SSFClient::Stop: a no-op when the async engine is not started; otherwise
close the fiber demux, shut down and close the transport socket discarding
the error codes those operations produce (shutdownEc, closeEc), stop the
async engine and release the socket. -/
def Stop (st : ClientState) (shutdownEc closeEc : ErrorCode) :
    ClientState × List Action :=
  if st.engineStarted = false then (st, [])
  else
    let r1 := demuxClose st
    let socketActs :=
      if r1.1.socketPresent then [Action.shutdownSocket, Action.closeSocket]
      else []
    ({ r1.1 with engineStarted := false, socketPresent := false },
     r1.2 ++ socketActs ++ [Action.engineStop])

/-- The admin command factory registrations performed at the start of
SSFClient::DoFiberize, in source order. -/
def adminCommandRegistrations : List Action :=
  [Action.registerCommand AdminCommandKind.createServiceRequest,
   Action.registerCommand AdminCommandKind.stopServiceRequest,
   Action.registerCommand AdminCommandKind.serviceStatus]

/-- The service registrations performed by SSFClient::DoFiberize, in source
order of the RegisterToServiceFactory calls. -/
def serviceRegistrationOrder : List ServiceKind :=
  [ServiceKind.socksServer, ServiceKind.fibersToSockets,
   ServiceKind.socketsToFibers, ServiceKind.fibersToDatagrams,
   ServiceKind.datagramsToFibers, ServiceKind.fileToFiber,
   ServiceKind.fiberToFile, ServiceKind.fileEnquirer,
   ServiceKind.processServer]

/-- The full action list of SSFClient::DoFiberize: register admin commands,
fiberize the demux (installing the OnDemuxClose handler), create the service
manager and the service factory, register every known micro service, then
start the admin service. -/
def doFiberizeActions : List Action :=
  adminCommandRegistrations
    ++ [Action.fiberizeDemux, Action.createServiceManager,
        Action.createServiceFactory]
    ++ serviceRegistrationOrder.map Action.registerService
    ++ [Action.startAdminService]

/-- SSFClient::DoFiberize: perform doFiberizeActions; the demux becomes
fiberized and a fresh factory (no running instances yet) is associated with
it; the returned error code is the outcome of starting the admin service
(p_service_manager->start), adminStartEc. -/
def DoFiberize (st : ClientState) (adminStartEc : ErrorCode) :
    ClientState × List Action × ErrorCode :=
  ({ st with demux := DemuxState.fiberized, factory := some [] },
   doFiberizeActions, adminStartEc)

/-- SSFClient::DoSSFStart, the transport handshake completion handler: notify
kind NETWORK with the handshake result ec; on success call DoFiberize with a
fresh error code ec2 and then notify kind TRANSPORT — the source passes ec,
the handshake result, to that Notify, and discards ec2; on failure only log. -/
def DoSSFStart (st : ClientState) (ec : ErrorCode) (adminStartEc : ErrorCode) :
    ClientState × List Action :=
  let acts1 := Notify st NotifyKind.NETWORK ec
  if ec = 0 then
    let r := DoFiberize st adminStartEc
    (r.1, acts1 ++ r.2.1 ++ Notify r.1 NotifyKind.TRANSPORT ec)
  else
    (st, acts1)

/-- The asynchronous outcomes a session can encounter: the resolver result,
the connect result, the handshake result, the admin start result (each 0 on
success) and, optionally, a later multiplexer-initiated close carrying the
transport error that triggered it. -/
structure Env where
  resolveEc : ErrorCode
  connectEc : ErrorCode
  handshakeEc : ErrorCode
  adminStartEc : ErrorCode
  demuxCloseEvent : Option ErrorCode
deriving DecidableEq

/-- A whole session from a fresh client: Run, then — when the engine started —
the connect completion NetworkToTransport (notify NETWORK on connect error);
on connect success the transport handshake (modelled from the spec: an opaque
asynchronous operation, DoSSFInitiate, whose result is handed to DoSSFStart);
finally, when the environment closes the multiplexer, the demux close handler.
The result is the final state, the concatenated action trace and Run's error
code. -/
def clientRun (cb : Bool) (env : Env) : ClientState × List Action × ErrorCode :=
  let r0 := Run (initialState cb) env.resolveEc
  if r0.1.engineStarted = false then r0
  else if env.connectEc ≠ 0 then
    (r0.1, r0.2.1 ++ Notify r0.1 NotifyKind.NETWORK env.connectEc, r0.2.2)
  else
    let r2 := DoSSFStart r0.1 env.handshakeEc env.adminStartEc
    match env.demuxCloseEvent with
    | none => (r2.1, r0.2.1 ++ r2.2, r0.2.2)
    | some _ =>
        let r3 := demuxClose r2.1
        (r3.1, r0.2.1 ++ r2.2 ++ r3.2, r0.2.2)

/-- The notifications posted to the scheduler in a trace, in order. -/
def postedNotifications (acts : List Action) : List (NotifyKind × ErrorCode) :=
  acts.filterMap fun a =>
    match a with
    | Action.postNotification k e => some (k, e)
    | _ => none

/-- The error codes of the CLOSE-kind notifications posted in a trace. -/
def closeNotifications (acts : List Action) : List ErrorCode :=
  acts.filterMap fun a =>
    match a with
    | Action.postNotification NotifyKind.CLOSE e => some e
    | _ => none

/-- Whether an action is a synchronous in-stack invocation of the application
callback. -/
def isSyncInvoke : Action → Bool
  | Action.invokeNotificationSync _ _ => true
  | _ => false

/-- Modelled from the spec: the terminal Closed connection state, observable
through the §3 invariant that the Stream Multiplexer exists iff the connection
state is at least Fiberizing — once a session's run is over, the absence of an
active (fiberized) multiplexer places it in Closed. -/
def sessionClosed (st : ClientState) : Bool :=
  decide (st.demux ≠ DemuxState.fiberized)

/-- Whether a trace is free of synchronous in-stack callback invocations. -/
def noSyncInvoke (acts : List Action) : Bool :=
  acts.all fun a => !(isSyncInvoke a)

theorem noSyncInvoke_append (l1 l2 : List Action) :
    noSyncInvoke (l1 ++ l2) = (noSyncInvoke l1 && noSyncInvoke l2) := by
  simp [noSyncInvoke]

theorem noSyncInvoke_notify (st : ClientState) (k : NotifyKind) (e : ErrorCode) :
    noSyncInvoke (Notify st k e) = true := by
  cases hc : st.callbackPresent <;>
    simp [Notify, hc, noSyncInvoke, isSyncInvoke]

theorem noSyncInvoke_onDemuxClose (st : ClientState) :
    noSyncInvoke (OnDemuxClose st).2 = true := by
  obtain ⟨es, sp, dx, fac, cb⟩ := st
  cases fac <;> cases cb <;>
    simp [OnDemuxClose, Notify, noSyncInvoke, isSyncInvoke]

theorem noSyncInvoke_demuxClose (st : ClientState) :
    noSyncInvoke (demuxClose st).2 = true := by
  obtain ⟨es, sp, dx, fac, cb⟩ := st
  cases dx
  · rfl
  · exact noSyncInvoke_onDemuxClose _
  · rfl

theorem noSyncInvoke_run (st : ClientState) (r : ErrorCode) :
    noSyncInvoke (Run st r).2.1 = true := by
  by_cases hs : st.engineStarted <;> by_cases hr : r = 0 <;>
    cases hc : st.callbackPresent <;>
    simp [Run, hs, hr, Notify, hc, noSyncInvoke, isSyncInvoke]

theorem noSyncInvoke_doFiberize (st : ClientState) (a : ErrorCode) :
    noSyncInvoke (DoFiberize st a).2.1 = true := by
  show noSyncInvoke doFiberizeActions = true
  decide

theorem noSyncInvoke_doSSFStart (st : ClientState) (ec a : ErrorCode) :
    noSyncInvoke (DoSSFStart st ec a).2 = true := by
  by_cases he : ec = 0 <;>
    simp [DoSSFStart, he, noSyncInvoke_append, noSyncInvoke_notify,
      noSyncInvoke_doFiberize]

/-- C5: when the async engine is already started, Run returns immediately with
the device_or_resource_busy error, performs no action (no socket creation, no
resolution, no connect attempt) and leaves the state unchanged. -/
theorem C5_run_already_active (st : ClientState) (r : ErrorCode)
    (h : st.engineStarted = true) :
    Run st r = (st, [], device_or_resource_busy) := by
  simp [Run, h]

/-- Witness for C5 at a concrete started state. -/
theorem C5_run_already_active_witness :
    (⟨true, true, DemuxState.fiberized, some [], true⟩ :
        ClientState).engineStarted = true ∧
    Run ⟨true, true, DemuxState.fiberized, some [], true⟩ 0 =
      (⟨true, true, DemuxState.fiberized, some [], true⟩, [],
       device_or_resource_busy) :=
  ⟨rfl, C5_run_already_active ⟨true, true, DemuxState.fiberized, some [], true⟩
    0 rfl⟩

/-- C9: when no callback was supplied at construction, Notify is a no-op for
every notification kind and error code — nothing is posted and nothing else
happens. -/
theorem C9_notify_without_callback_noop (st : ClientState) (k : NotifyKind)
    (e : ErrorCode) (h : st.callbackPresent = false) :
    Notify st k e = [] := by
  simp [Notify, h]

/-- Witness for C9 at a concrete callback-free state. -/
theorem C9_notify_without_callback_noop_witness :
    (initialState false).callbackPresent = false ∧
    Notify (initialState false) NotifyKind.CLOSE 3 = [] :=
  ⟨rfl, C9_notify_without_callback_noop (initialState false) NotifyKind.CLOSE 3
    rfl⟩

/-- C10: when endpoint resolution fails inside Run, the caller's error code is
set to the resolution error, a NETWORK notification carrying that error is
posted, the async engine is never started, and a subsequent Run is not
rejected as already active — it proceeds to create a socket again. -/
theorem C10_resolve_failure_not_sticky (st : ClientState) (e r2 : ErrorCode)
    (hs : st.engineStarted = false) (he : e ≠ 0)
    (hcb : st.callbackPresent = true) :
    Run st e =
      ({ st with socketPresent := true },
       [Action.createSocket, Action.resolveEndpoint,
        Action.postNotification NotifyKind.NETWORK e], e) ∧
    (Run st e).1.engineStarted = false ∧
    Action.createSocket ∈ (Run (Run st e).1 r2).2.1 := by
  refine ⟨?_, ?_, ?_⟩
  · simp [Run, hs, he, Notify, hcb]
  · simp [Run, hs, he]
  · by_cases hr : r2 = 0 <;> simp [Run, hs, he, hr, Notify, hcb]

/-- Witness for C10 at a fresh client and resolution error 7. -/
theorem C10_resolve_failure_not_sticky_witness :
    (initialState true).engineStarted = false ∧ (7 : ErrorCode) ≠ 0 ∧
    (initialState true).callbackPresent = true ∧
    (Run (initialState true) 7 =
      ({ initialState true with socketPresent := true },
       [Action.createSocket, Action.resolveEndpoint,
        Action.postNotification NotifyKind.NETWORK 7], 7) ∧
     (Run (initialState true) 7).1.engineStarted = false ∧
     Action.createSocket ∈ (Run (Run (initialState true) 7).1 0).2.1) :=
  ⟨rfl, by decide, rfl,
   C10_resolve_failure_not_sticky (initialState true) 7 0 rfl (by decide) rfl⟩

/-- C3: Stop on a client whose async engine is started closes the multiplexer,
shuts down and closes the transport socket with the socket error codes
discarded (the result does not depend on them), stops the async engine and
releases the socket; and a second Stop, the engine being stopped, is a no-op
returning the state unchanged with no action and no error. -/
theorem C3_stop_idempotent (st : ClientState) (e1 e2 f1 f2 : ErrorCode)
    (h : st.engineStarted = true) :
    (Stop st e1 e2).1.engineStarted = false ∧
    (Stop st e1 e2).1.socketPresent = false ∧
    (Stop st e1 e2).1.demux ≠ DemuxState.fiberized ∧
    Action.engineStop ∈ (Stop st e1 e2).2 ∧
    (st.socketPresent = true →
      Action.shutdownSocket ∈ (Stop st e1 e2).2 ∧
      Action.closeSocket ∈ (Stop st e1 e2).2) ∧
    Stop st e1 e2 = Stop st f1 f2 ∧
    Stop (Stop st e1 e2).1 f1 f2 = ((Stop st e1 e2).1, []) := by
  obtain ⟨es, sp, dx, fac, cb⟩ := st
  cases h
  refine ⟨?_, ?_, ?_, ?_, ?_, rfl, ?_⟩ <;>
    cases dx <;> cases fac <;> cases cb <;> cases sp <;>
      simp [Stop, demuxClose, OnDemuxClose, Notify]

/-- Witness for C3 at a concrete running state with a fiberized demux. -/
theorem C3_stop_idempotent_witness :
    (⟨true, true, DemuxState.fiberized, some [4], true⟩ :
        ClientState).engineStarted = true ∧
    ((Stop ⟨true, true, DemuxState.fiberized, some [4], true⟩ 1 2).1.engineStarted
        = false ∧
     (Stop ⟨true, true, DemuxState.fiberized, some [4], true⟩ 1 2).1.socketPresent
        = false ∧
     (Stop ⟨true, true, DemuxState.fiberized, some [4], true⟩ 1 2).1.demux ≠
        DemuxState.fiberized ∧
     Action.engineStop ∈
        (Stop ⟨true, true, DemuxState.fiberized, some [4], true⟩ 1 2).2 ∧
     ((⟨true, true, DemuxState.fiberized, some [4], true⟩ :
          ClientState).socketPresent = true →
       Action.shutdownSocket ∈
          (Stop ⟨true, true, DemuxState.fiberized, some [4], true⟩ 1 2).2 ∧
       Action.closeSocket ∈
          (Stop ⟨true, true, DemuxState.fiberized, some [4], true⟩ 1 2).2) ∧
     Stop ⟨true, true, DemuxState.fiberized, some [4], true⟩ 1 2 =
        Stop ⟨true, true, DemuxState.fiberized, some [4], true⟩ 3 4 ∧
     Stop (Stop ⟨true, true, DemuxState.fiberized, some [4], true⟩ 1 2).1 3 4 =
        ((Stop ⟨true, true, DemuxState.fiberized, some [4], true⟩ 1 2).1, [])) :=
  ⟨rfl, C3_stop_idempotent ⟨true, true, DemuxState.fiberized, some [4], true⟩
    1 2 3 4 rfl⟩

/-- C6: when the multiplexer signals its close and a service factory is
associated with it, OnDemuxClose stops every running service instance and
destroys the factory, and only afterwards posts the CLOSE-kind notification. -/
theorem C6_destroy_before_close_notification (st : ClientState)
    (ids : List Nat) (hf : st.factory = some ids)
    (hcb : st.callbackPresent = true) :
    OnDemuxClose st =
      ({ st with factory := none },
       ids.map Action.stopServiceInstance
         ++ [Action.destroyFactory,
             Action.postNotification NotifyKind.CLOSE noError]) := by
  simp [OnDemuxClose, hf, Notify, hcb]

/-- Witness for C6 at a demux with two running service instances. -/
theorem C6_destroy_before_close_notification_witness :
    (⟨true, true, DemuxState.fiberized, some [1, 2], true⟩ :
        ClientState).factory = some [1, 2] ∧
    (⟨true, true, DemuxState.fiberized, some [1, 2], true⟩ :
        ClientState).callbackPresent = true ∧
    OnDemuxClose ⟨true, true, DemuxState.fiberized, some [1, 2], true⟩ =
      (⟨true, true, DemuxState.fiberized, none, true⟩,
       [Action.stopServiceInstance 1, Action.stopServiceInstance 2,
        Action.destroyFactory,
        Action.postNotification NotifyKind.CLOSE noError]) :=
  ⟨rfl, rfl,
   C6_destroy_before_close_notification
     ⟨true, true, DemuxState.fiberized, some [1, 2], true⟩ [1, 2] rfl rfl⟩

/-- C1, counterexample: in a run where resolution, connect and the handshake
all succeed but starting the Admin service fails with error 5, the
TRANSPORT-kind notification carries the success code, not the Admin startup
error — DoSSFStart notifies with the handshake result ec and discards ec2. -/
theorem C1_counterexample_transport_ignores_admin_error :
    postedNotifications (clientRun true ⟨0, 0, 0, 5, none⟩).2.1 =
      [(NotifyKind.NETWORK, noError), (NotifyKind.TRANSPORT, noError)] ∧
    (NotifyKind.TRANSPORT, (5 : ErrorCode)) ∉
      postedNotifications (clientRun true ⟨0, 0, 0, 5, none⟩).2.1 := by
  decide

/-- C1, amended: for every run where the handshake succeeds, the client first
posts a NETWORK-kind notification carrying the success code, then fiberizes
the transport and performs the whole fiberization sequence, and then posts a
TRANSPORT-kind notification that again carries the handshake's success code,
whatever the outcome a of starting the Admin service was. -/
theorem C1_success_notification_sequence (a : ErrorCode) :
    (clientRun true ⟨0, 0, 0, a, none⟩).2.1 =
      [Action.createSocket, Action.resolveEndpoint, Action.asyncConnect,
       Action.postNotification NotifyKind.NETWORK noError]
        ++ doFiberizeActions
        ++ [Action.postNotification NotifyKind.TRANSPORT noError] := by
  rfl

/-- C2: when connect succeeds but the handshake completes with a nonzero
failure code e, the posted notifications are exactly one NETWORK-kind
notification carrying e — so no TRANSPORT-kind notification is ever posted —
no fiberization of the transport occurs, and the session ends Closed, whether
or not a later transport-loss event d arrives. -/
theorem C2_handshake_failure_halts (e : ErrorCode) (d : Option ErrorCode)
    (he : e ≠ 0) :
    postedNotifications (clientRun true ⟨0, 0, e, 0, d⟩).2.1 =
      [(NotifyKind.NETWORK, e)] ∧
    Action.fiberizeDemux ∉ (clientRun true ⟨0, 0, e, 0, d⟩).2.1 ∧
    sessionClosed (clientRun true ⟨0, 0, e, 0, d⟩).1 = true := by
  cases d <;>
    simp [clientRun, Run, initialState, DoSSFStart, DoFiberize, demuxClose,
      Notify, postedNotifications, sessionClosed, he, doFiberizeActions,
      adminCommandRegistrations, serviceRegistrationOrder]

/-- Witness for C2 with handshake error 7 and no later transport loss. -/
theorem C2_handshake_failure_halts_witness :
    (7 : ErrorCode) ≠ 0 ∧
    (postedNotifications (clientRun true ⟨0, 0, 7, 0, none⟩).2.1 =
      [(NotifyKind.NETWORK, 7)] ∧
     Action.fiberizeDemux ∉ (clientRun true ⟨0, 0, 7, 0, none⟩).2.1 ∧
     sessionClosed (clientRun true ⟨0, 0, 7, 0, none⟩).1 = true) :=
  ⟨by decide, C2_handshake_failure_halts 7 none (by decide)⟩

/-- C4, counterexample: a session that ends because the handshake failed with
error 3 posts no CLOSE-kind notification at all, and a session whose
multiplexer is closed by a transport loss with error 9 posts a CLOSE-kind
notification carrying the success code rather than the triggering error. -/
theorem C4_counterexample_close_notification :
    closeNotifications (clientRun true ⟨0, 0, 3, 0, none⟩).2.1 = [] ∧
    closeNotifications (clientRun true ⟨0, 0, 0, 0, some 9⟩).2.1 = [noError] ∧
    (9 : ErrorCode) ≠ noError := by
  decide

/-- C4, amended: a CLOSE-kind notification is posted exactly when a fiberized
multiplexer closes, in which case exactly one is posted and it carries the
default success code, never the error that triggered the close; a session that
ends before fiberization posts no CLOSE-kind notification. -/
theorem C4_close_characterization (env : Env) :
    closeNotifications (clientRun true env).2.1 =
      if env.resolveEc = 0 ∧ env.connectEc = 0 ∧ env.handshakeEc = 0 ∧
          env.demuxCloseEvent.isSome = true
      then [noError] else [] := by
  obtain ⟨r, c, h, a, d⟩ := env
  by_cases hr : r = 0 <;> by_cases hc : c = 0 <;> by_cases hh : h = 0 <;>
    cases d <;>
    simp [clientRun, Run, initialState, DoSSFStart, DoFiberize, demuxClose,
      OnDemuxClose, Notify, closeNotifications, hr, hc, hh, doFiberizeActions,
      adminCommandRegistrations, serviceRegistrationOrder, noError]

/-- C7: no operation of the client ever invokes the application callback
synchronously from the caller's stack: every trace — of a whole session run,
of Stop, and of the demux close handler — is free of synchronous invocations,
every notification being posted to the scheduler. -/
theorem C7_notifications_always_posted (cb : Bool) (env : Env)
    (st st2 : ClientState) (e1 e2 : ErrorCode) :
    noSyncInvoke (clientRun cb env).2.1 = true ∧
    noSyncInvoke (Stop st e1 e2).2 = true ∧
    noSyncInvoke (OnDemuxClose st2).2 = true := by
  refine ⟨?_, ?_, noSyncInvoke_onDemuxClose st2⟩
  · obtain ⟨r, c, h, a, d⟩ := env
    by_cases hc : c = 0 <;> cases d <;>
      cases hs : (Run (initialState cb) r).1.engineStarted <;>
      simp [clientRun, hs, hc, noSyncInvoke_append, noSyncInvoke_run,
        noSyncInvoke_notify, noSyncInvoke_doSSFStart, noSyncInvoke_demuxClose]
  · obtain ⟨es, sp, dx, fac, cb2⟩ := st
    cases es <;> cases sp <;> cases dx <;> cases fac <;> cases cb2 <;>
      simp [Stop, demuxClose, OnDemuxClose, Notify, noSyncInvoke, isSyncInvoke]

/-- C8: DoFiberize registers every known service type into the freshly created
service factory exactly once, each registration coming after the factory is
created and before the Admin service is started — which itself happens exactly
once, at the end of the trace. -/
theorem C8_registrations_once_before_admin (st : ClientState) (a : ErrorCode)
    (s : ServiceKind) :
    (DoFiberize st a).2.1.count (Action.registerService s) = 1 ∧
    List.indexOf Action.createServiceFactory (DoFiberize st a).2.1 <
      List.indexOf (Action.registerService s) (DoFiberize st a).2.1 ∧
    List.indexOf (Action.registerService s) (DoFiberize st a).2.1 <
      List.indexOf Action.startAdminService (DoFiberize st a).2.1 ∧
    (DoFiberize st a).2.1.count Action.startAdminService = 1 := by
  show doFiberizeActions.count (Action.registerService s) = 1 ∧
    List.indexOf Action.createServiceFactory doFiberizeActions <
      List.indexOf (Action.registerService s) doFiberizeActions ∧
    List.indexOf (Action.registerService s) doFiberizeActions <
      List.indexOf Action.startAdminService doFiberizeActions ∧
    doFiberizeActions.count Action.startAdminService = 1
  cases s <;> decide

end SSF
